import Mathlib

/-!
A shallow embedding of the AI Document Assistant repository, with theorems
checking the specification against it.

The React client (frontend/app.js, frontend/src/pages/Projects.jsx,
backend/frontend/src/services/api.js) is embedded directly from the source:
each handler becomes a pure function from its inputs and the observed HTTP
outcome to the alert shown, the state patch applied, and whether a request
was issued at all.  The Flask backend (backend/app.py) is not among the
source files; the services it provides are modelled from the specification
where a claim needs them, and each such definition says so in its doc
comment.  The database schema (backend/schema/init_db.sql) fixes the record
shapes.
-/

namespace AIDoc

/-- Truthiness of a JavaScript string: only the empty string is falsy. -/
def jsTruthy (s : String) : Bool := s != ""

/-- JavaScript a or-else b where a is a possibly-absent string field:
undefined and the empty string are both falsy, so both fall through to b. -/
def jsOrS (a : Option String) (b : String) : String :=
  match a with
  | some s => if s = "" then b else s
  | none => b

/-- The JavaScript trim method on strings: drop leading and trailing
whitespace.  Defined structurally over the character list so that concrete
instances evaluate. -/
def jsTrim (s : String) : String :=
  ⟨((s.data.dropWhile Char.isWhitespace).reverse.dropWhile
      Char.isWhitespace).reverse⟩

/-- Row of the refinements table (backend/schema/init_db.sql lines 19-26):
one accepted AI rewrite of a section, with the prompt that produced it. -/
structure Refinement where
  id : String
  section_id : Nat
  prompt : String
  revised_text : String
  created_at : String
deriving DecidableEq

/-- Row of the comments table (backend/schema/init_db.sql lines 28-34). -/
structure Comment where
  id : String
  section_id : Nat
  comment : String
  created_at : String
deriving DecidableEq

/-- Row of the sections table (backend/schema/init_db.sql lines 8-17)
together with its owned refinement history and comments, as the API returns
it to the client. -/
structure Section where
  id : Nat
  document_id : Nat
  position : Nat
  heading : String
  type : String
  text : String
  last_feedback : Option Nat
  refinements : List Refinement
  comments : List Comment
deriving DecidableEq

/-- Row of the documents table (backend/schema/init_db.sql lines 2-6) with
its sections as held in client state.  The sections field is none when the
JSON object carries no sections key, as for a freshly created document. -/
structure Document where
  id : Nat
  title : String
  created_at : String
  sections : Option (List Section)
deriving DecidableEq

/-- Partial update object merged into a section by JavaScript object spread
in frontend/app.js line 560: a field that is none is absent from the changes
object and leaves the corresponding section field unchanged. -/
structure SectionChanges where
  id : Option Nat := none
  document_id : Option Nat := none
  position : Option Nat := none
  heading : Option String := none
  type : Option String := none
  text : Option String := none
  last_feedback : Option (Option Nat) := none
  refinements : Option (List Refinement) := none
  comments : Option (List Comment) := none
deriving DecidableEq

/-- JavaScript object spread of a changes object over a section
(frontend/app.js line 560), restricted to the fields of Section. -/
def applyChanges (s : Section) (c : SectionChanges) : Section where
  id := c.id.getD s.id
  document_id := c.document_id.getD s.document_id
  position := c.position.getD s.position
  heading := c.heading.getD s.heading
  type := c.type.getD s.type
  text := c.text.getD s.text
  last_feedback := c.last_feedback.getD s.last_feedback
  refinements := c.refinements.getD s.refinements
  comments := c.comments.getD s.comments

/-- updateSection of DocumentView (frontend/app.js lines 556-565): copy the
document object, then map over its sections (empty when absent), merging the
changes into every section whose id matches. -/
def updateSection (doc : Document) (sectionId : Nat) (c : SectionChanges) :
    Document :=
  { doc with
    sections := some ((doc.sections.getD []).map
      (fun s => if s.id = sectionId then applyChanges s c else s)) }

/-- JSON values as far as JSON.parse results are observed by the client. -/
inductive Json where
  | null
  | bool (b : Bool)
  | num (n : Int)
  | str (s : String)
  | arr (xs : List Json)
  | obj (fields : List (String × Json))

/-- Result of a JavaScript call that can throw, such as JSON.parse. -/
inductive JsResult (α : Type) where
  | ok (v : α)
  | exn (msg : String)

/-- The argument loadUser hands to JSON.parse (frontend/app.js line 14):
the stored value of the key ai_user, or the string null when the key is
absent (getItem returned null) or holds the empty string. -/
def getItemOrNull (stored : Option String) : String := jsOrS stored "null"

/-- loadUser (frontend/app.js lines 12-18): parse the stored string inside a
try block and return the parsed value; return null when parsing throws. -/
def loadUser (parse : String → JsResult Json) (stored : Option String) :
    Json :=
  match parse (getItemOrNull stored) with
  | .ok v => v
  | .exn _ => .null

/-- JavaScript truthiness of a parsed JSON value, as tested by the root
component (frontend/app.js line 623). -/
def jsTruthyJson : Json → Bool
  | .null => false
  | .bool b => b
  | .num n => n != 0
  | .str s => s != ""
  | .arr _ => true
  | .obj _ => true

/-- Screens the root App component can render (frontend/app.js 623-658):
the login form, or the workspace (dashboard / document view). -/
inductive Screen where
  | login
  | workspace
deriving DecidableEq

/-- Startup screen choice of App (frontend/app.js lines 587-624): the user
state is initialised from loadUser, and a falsy user shows the Login
screen. -/
def initialScreen (parse : String → JsResult Json) (stored : Option String) :
    Screen :=
  if jsTruthyJson (loadUser parse stored) then .workspace else .login

/-- Body of an error response as the clients read it: each key may be
absent (spec section 6 names the keys error and detail; api.js also reads
message). -/
structure ErrBody where
  error : Option String := none
  detail : Option String := none
  message : Option String := none
deriving DecidableEq

/-- Success body of the refine endpoint, as read by the clients:
revised_text and refinements. -/
structure RefineBody where
  revised_text : String
  refinements : List Refinement
deriving DecidableEq

/-- Outcome of the fetch plus res.json pair inside a client handler: a 2xx
response with a parsed body, a non-2xx response with a parsed error body,
or a thrown network or parse error. -/
inductive FetchOutcome (α : Type) where
  | success (body : α)
  | httpError (body : ErrBody)
  | thrown
deriving DecidableEq

/-- Observable effects of one run of a client section handler: whether the
HTTP request was issued, the onUpdated patch applied to the section if any,
the alert shown if any, and whether the prompt input was cleared. -/
structure HandlerRun where
  requestSent : Bool
  update : Option SectionChanges
  alertMsg : Option String
  clearedPrompt : Bool
deriving DecidableEq

/-- The refine handler of SectionCard (frontend/app.js lines 357-390) as a
function of the prompt and the observed fetch outcome.  A blank prompt is
rejected before any request; a 2xx body patches the section with
revised_text and refinements and clears the prompt; an error alerts with
the error key of the body, or a generic message. -/
def clientRefine (refinePrompt : String) (outcome : FetchOutcome RefineBody) :
    HandlerRun :=
  if jsTrim refinePrompt = "" then
    { requestSent := false, update := none,
      alertMsg := some "Enter a refinement instruction", clearedPrompt := false }
  else
    match outcome with
    | .success body =>
        { requestSent := true,
          update := some { text := some body.revised_text,
                           refinements := some body.refinements },
          alertMsg := none, clearedPrompt := true }
    | .httpError body =>
        { requestSent := true, update := none,
          alertMsg := some (jsOrS body.error "Refine failed"),
          clearedPrompt := false }
    | .thrown =>
        { requestSent := true, update := none,
          alertMsg := some "Refine failed", clearedPrompt := false }

/-- sendRefinement of RefinementEditor (frontend/src/pages/Projects.jsx
lines 87-118).  The guard tests JavaScript falsiness of the prompt, so only
the empty string is rejected; the caller at line 204 trims the input field
before calling.  On success the section is patched with revised_text and
refinements and the local edit is dropped. -/
def sendRefinement (prompt : String) (outcome : FetchOutcome RefineBody) :
    HandlerRun :=
  if prompt = "" then
    { requestSent := false, update := none,
      alertMsg := some "Enter a refinement prompt.", clearedPrompt := false }
  else
    match outcome with
    | .success body =>
        { requestSent := true,
          update := some { text := some body.revised_text,
                           refinements := some body.refinements },
          alertMsg := none, clearedPrompt := true }
    | .httpError body =>
        { requestSent := true, update := none,
          alertMsg := some (jsOrS body.error "Refinement failed"),
          clearedPrompt := false }
    | .thrown =>
        { requestSent := true, update := none,
          alertMsg := some "Refinement request failed.",
          clearedPrompt := false }

/-- sendFeedback of SectionCard (frontend/app.js lines 426-438): posts the
flag and patches the card with last_feedback as 1 for liked, 0 for
disliked; a network failure only alerts. -/
def clientSendFeedback (liked : Bool) (failed : Bool) : HandlerRun :=
  if failed then
    { requestSent := true, update := none,
      alertMsg := some "Feedback failed", clearedPrompt := false }
  else
    { requestSent := true,
      update := some { last_feedback := some (some (if liked then 1 else 0)) },
      alertMsg := none, clearedPrompt := false }

/-- Error thrown by handleResponse, carrying the message, the status and
the parsed body (backend/frontend/src/services/api.js lines 15-20). -/
structure ApiError where
  message : String
  status : Nat
  body : Option ErrBody
deriving DecidableEq

/-- handleResponse (backend/frontend/src/services/api.js lines 9-23): on a
non-2xx status it throws an error whose message is the detail key of the
body, else the message key, else HTTP followed by the status; body is none
when the response was not JSON or failed to parse.  A 2xx response returns
the body. -/
def handleResponse (status : Nat) (body : Option ErrBody) :
    Except ApiError (Option ErrBody) :=
  if 200 ≤ status ∧ status < 300 then .ok body
  else
    .error { message := jsOrS (body.bind ErrBody.detail)
               (jsOrS (body.bind ErrBody.message) ("HTTP " ++ toString status)),
             status := status, body := body }

/-- Modelled from the spec: the error taxonomy of spec section 7.  The
backend (backend/app.py) is not among the source files. -/
inductive ServiceError where
  | validation (msg : String)
  | notFound (msg : String)
  | generation (cause : String)
  | refinement (cause : String)
deriving DecidableEq

/-- Modelled from the spec: the AI Text Provider as an opaque transform
that may fail or time out (spec section 2).  A script lists the outcome of
each successive provider call in order, so a service consuming the script
makes exactly one call per element it removes. -/
abbrev ProviderScript := List (Except String String)

/-- Modelled from the spec: the Section Refinement Service of spec section
4.2 (backend/app.py is not among the source files).  Validates the prompt,
makes one AI Text Provider call, and on success appends a Refinement row to
the history and overwrites the section text; the unconsumed script is
returned so call counts are visible.  An exhausted script stands for a
timed-out provider. -/
def refineService (s : Section) (p : String) (newId : String) (now : String)
    (script : ProviderScript) :
    Except ServiceError (Section × RefineBody) × ProviderScript :=
  if jsTrim p = "" then
    (.error (.validation "Enter a refinement prompt"), script)
  else
    match script with
    | [] => (.error (.refinement "AI provider timed out"), [])
    | .error cause :: rest => (.error (.refinement cause), rest)
    | .ok revised :: rest =>
        let r : Refinement :=
          { id := newId, section_id := s.id, prompt := p,
            revised_text := revised, created_at := now }
        let s2 := { s with text := revised,
                           refinements := s.refinements ++ [r] }
        (.ok (s2, { revised_text := revised,
                    refinements := s2.refinements }), rest)

/-- The sections table of the store. -/
abbrev Store := List Section

/-- Modelled from the spec: the refine endpoint at the store level — the
stored section row is only rewritten when the service step succeeds, so a
failed provider call leaves the store untouched. -/
def refineEndpoint (st : Store) (sid : Nat) (p : String) (newId : String)
    (now : String) (script : ProviderScript) :
    Except ServiceError RefineBody × Store × ProviderScript :=
  match st.find? (fun t => t.id == sid) with
  | none => (.error (.notFound "Section not found"), st, script)
  | some s =>
      match refineService s p newId now script with
      | (.ok (s2, body), rest) =>
          (.ok body, st.map (fun t => if t.id = sid then s2 else t), rest)
      | (.error e, rest) => (.error e, st, rest)

/-- Modelled from the spec: the page-specific instruction derived from the
prompt, the theme and the page index (spec section 4.1). -/
def pageInstruction (p theme : String) (i : Nat) : String :=
  "Write page " ++ toString (i + 1) ++ " about: " ++ p ++
    " in a " ++ theme ++ " tone"

/-- Modelled from the spec: the section heading derived from the page topic
(spec section 4.1). -/
def pageHeading (p : String) (i : Nat) : String :=
  p ++ " - page " ++ toString (i + 1)

/-- Modelled from the spec: the Section row written for page i of a
generation run, with position equal to the page index and text equal to the
provider output for the page instruction. -/
def mkPage (docId : Nat) (p theme : String) (i : Nat) (body : String) :
    Section :=
  { id := i, document_id := docId, position := i,
    heading := pageHeading p i, type := "text", text := body,
    last_feedback := none, refinements := [], comments := [] }

/-- Modelled from the spec: the sequential per-page generation loop of
generateDocument (spec section 4.1).  The first Nat is the index of the
next page, the second the number of pages still to generate; returns the
sections created in order, the cause of a mid-sequence provider failure if
one occurred, and the unconsumed provider script.  Sections created before
a failure are kept: no transaction wraps the whole generation. -/
def generatePages (docId : Nat) (p theme : String) :
    Nat → Nat → ProviderScript →
      List Section × Option String × ProviderScript
  | _, 0, script => ([], none, script)
  | i, k + 1, script =>
      match script with
      | [] => ([], some "AI provider timed out", [])
      | .error cause :: rest => ([], some cause, rest)
      | .ok body :: rest =>
          let step := generatePages docId p theme (i + 1) k rest
          (mkPage docId p theme i body :: step.1, step.2.1, step.2.2)

/-- Modelled from the spec: generateDocument (spec section 4.1).  A zero
page count or a blank prompt fails with a GenerationError before any
provider call; otherwise pages are generated sequentially, and the sections
created before a mid-sequence failure remain visible in the second
component even though the call reports the failure. -/
def generateDocument (doc : Document) (p theme : String) (pageCount : Nat)
    (script : ProviderScript) :
    Except ServiceError Document × List Section × ProviderScript :=
  if pageCount = 0 then
    (.error (.generation "pages must be positive"), [], script)
  else if jsTrim p = "" then
    (.error (.generation "Enter a prompt"), [], script)
  else
    match generatePages doc.id p theme 0 pageCount script with
    | (secs, none, rest) =>
        (.ok { doc with sections := some secs }, secs, rest)
    | (secs, some cause, rest) =>
        (.error (.generation cause), secs, rest)

/-- Row of the feedback table (backend/schema/init_db.sql lines 36-42). -/
structure FeedbackRow where
  id : String
  section_id : Nat
  liked : Nat
  created_at : String
deriving DecidableEq

/-- Modelled from the spec: setFeedback (spec section 4.3) — overwrites the
last_feedback column of the section with the latest value, encoded 1 for
liked and 0 for disliked; the schema keeps a feedback log table, so a row
is appended there as well, but only the latest value is observable via the
Section. -/
def setFeedback (s : Section) (log : List FeedbackRow) (liked : Bool)
    (newId : String) (now : String) : Section × List FeedbackRow :=
  let v : Nat := if liked then 1 else 0
  ({ s with last_feedback := some v },
   log ++ [{ id := newId, section_id := s.id, liked := v,
             created_at := now }])

/-- File-extension choice of DownloadBar (frontend/app.js lines 307-312):
pptx and pdf map to themselves, anything else to docx. -/
def extFor (format : String) : String :=
  if format = "pptx" then "pptx" else if format = "pdf" then "pdf" else "docx"

/-- Modelled from the spec: the fixed enumerated set of export formats
(spec section 4.4). -/
def exportFormats : List String := ["docx", "pptx", "pdf"]

/-- Modelled from the spec: the Export Service (spec section 4.4), with the
renderer an opaque external collaborator consuming the document title, the
ordered heading and text pairs of its sections, and the format.  An
unsupported format fails with a ValidationError before anything is
rendered; an unknown document id fails with a NotFoundError; success pairs
the rendered bytes with the format extension. -/
def exportDocument (render : String → List (String × String) → String → List Nat)
    (docs : List Document) (docId : Nat) (format : String) :
    Except ServiceError (List Nat × String) :=
  if exportFormats.contains format then
    match docs.find? (fun d => d.id == docId) with
    | none => .error (.notFound "Document not found")
    | some d =>
        .ok (render d.title
               ((d.sections.getD []).map (fun s => (s.heading, s.text)))
               format,
             extFor format)
  else .error (.validation ("Unsupported format: " ++ format))

/-- Inputs of one successful refinement call: the prompt, the row id and
timestamp the store assigns, and the provider output accepted. -/
structure RefineCall where
  prompt : String
  newId : String
  now : String
  revised : String
deriving DecidableEq

/-- The Refinement row a successful refineService call writes for a section
with the given id. -/
def rowOf (sid : Nat) (c : RefineCall) : Refinement :=
  { id := c.newId, section_id := sid, prompt := c.prompt,
    revised_text := c.revised, created_at := c.now }

/-- Iterate refineService over a list of calls, feeding each call a script
holding its own successful provider outcome. -/
def refineRuns (s : Section) : List RefineCall → Section
  | [] => s
  | c :: cs =>
      match refineService s c.prompt c.newId c.now [.ok c.revised] with
      | (.ok (s2, _), _) => refineRuns s2 cs
      | (.error _, _) => s

/-- The sections a generation run over the given provider outputs creates,
page by page from start index i: position equals the page index and the
heading is derived from the page topic. -/
def expectedPages (docId : Nat) (p theme : String) :
    Nat → List String → List Section
  | _, [] => []
  | i, t :: ts => mkPage docId p theme i t :: expectedPages docId p theme (i + 1) ts

/-- A concrete section used to instantiate theorems at concrete inputs. -/
def sampleSection : Section :=
  { id := 1, document_id := 7, position := 0, heading := "Intro",
    type := "text", text := "Old text", last_feedback := none,
    refinements := [], comments := [] }

/-- A second concrete section, with a different id. -/
def sampleSection2 : Section :=
  { id := 2, document_id := 7, position := 1, heading := "Body",
    type := "text", text := "More text", last_feedback := none,
    refinements := [], comments := [] }

/-- A concrete document holding the two sample sections. -/
def sampleDoc : Document :=
  { id := 7, title := "Report", created_at := "2024-01-01",
    sections := some [sampleSection, sampleSection2] }

/-- A concrete stand-in for JSON.parse: accepts exactly the string null and
throws on everything else. -/
def demoParse : String → JsResult Json :=
  fun s => if s = "null" then .ok .null else .exn "SyntaxError: Unexpected token"

/-- A concrete stand-in for the opaque export renderer. -/
def demoRender : String → List (String × String) → String → List Nat :=
  fun _ _ _ => [80, 75, 3, 4]

/-- C9: loadUser is total over every possible content of the stored ai_user
key — a parse failure yields null rather than a thrown exception, an absent
key yields null through the parse of the string null, a successful parse
yields the parsed value, and a corrupted stored session starts the app on
the Login screen instead of crashing. -/
theorem load_user_total (parse : String → JsResult Json)
    (stored : Option String) :
    (∀ e, parse (getItemOrNull stored) = .exn e →
      loadUser parse stored = Json.null ∧
      initialScreen parse stored = Screen.login) ∧
    (∀ v, parse (getItemOrNull stored) = .ok v →
      loadUser parse stored = v) ∧
    (stored = none → parse "null" = .ok Json.null →
      loadUser parse stored = Json.null) := by
  refine ⟨?_, ?_, ?_⟩
  · intro e he
    have h1 : loadUser parse stored = Json.null := by
      unfold loadUser
      rw [he]
    refine ⟨h1, ?_⟩
    unfold initialScreen
    rw [h1]
    rfl
  · intro v hv
    unfold loadUser
    rw [hv]
  · intro hn hparse
    subst hn
    have h0 : getItemOrNull none = "null" := rfl
    unfold loadUser
    rw [h0, hparse]

/-- C9 witness: with a parse that throws on the stored content, loadUser
returns null and the app starts on the Login screen. -/
theorem load_user_total_witness :
    loadUser demoParse (some "corrupted session") = Json.null ∧
    initialScreen demoParse (some "corrupted session") = Screen.login := by
  exact (load_user_total demoParse (some "corrupted session")).1
    "SyntaxError: Unexpected token" rfl

/-- C10: updateSection is frame-preserving — the document id, title and
created_at are untouched, the sections list keeps its length and order with
the changes merged exactly into the sections whose id matches, and every
section with a different id is unchanged at its position. -/
theorem update_section_frame (doc : Document) (sid : Nat)
    (c : SectionChanges) :
    (updateSection doc sid c).id = doc.id ∧
    (updateSection doc sid c).title = doc.title ∧
    (updateSection doc sid c).created_at = doc.created_at ∧
    (updateSection doc sid c).sections =
      some ((doc.sections.getD []).map
        (fun s => if s.id = sid then applyChanges s c else s)) ∧
    ((updateSection doc sid c).sections.getD []).length =
      (doc.sections.getD []).length ∧
    (∀ i : Nat, ∀ hi : i < (doc.sections.getD []).length,
      ((doc.sections.getD []).get ⟨i, hi⟩).id ≠ sid →
      ∀ hj : i < ((updateSection doc sid c).sections.getD []).length,
        ((updateSection doc sid c).sections.getD []).get ⟨i, hj⟩ =
          (doc.sections.getD []).get ⟨i, hi⟩) := by
  refine ⟨rfl, rfl, rfl, rfl, by simp [updateSection], ?_⟩
  intro i hi hne hj
  have hi2 : i < ((doc.sections.getD []).map
      (fun s => if s.id = sid then applyChanges s c else s)).length := by
    simpa using hi
  have hstep : ((updateSection doc sid c).sections.getD []).get ⟨i, hj⟩ =
      ((doc.sections.getD []).map
        (fun s => if s.id = sid then applyChanges s c else s)).get ⟨i, hi2⟩ :=
    rfl
  rw [hstep, List.get_map]
  exact if_neg hne

/-- C10 witness: patching section 1 of the sample document leaves the title
and the second section unchanged and keeps the list length. -/
theorem update_section_frame_witness :
    (updateSection sampleDoc 1 { text := some "New" }).title =
      sampleDoc.title ∧
    ((updateSection sampleDoc 1 { text := some "New" }).sections.getD
        []).length = 2 ∧
    ((updateSection sampleDoc 1 { text := some "New" }).sections.getD
        []).get ⟨1, by decide⟩ = sampleSection2 := by
  have h := update_section_frame sampleDoc 1 { text := some "New" }
  refine ⟨h.2.1, ?_, ?_⟩
  · rw [h.2.2.2.2.1]
    decide
  · exact h.2.2.2.2.2 1 (by decide) (by decide) (by decide)

/-- C2 counterexample: with an empty prompt the SectionCard refine handler
alerts with the message Enter a refinement instruction, and the
RefinementEditor handler alerts with Enter a refinement prompt followed by
a period, so neither rejection carries the exact message the claim
states. -/
theorem refine_empty_prompt_counterexample :
    (clientRefine "" (.success { revised_text := "x", refinements := [] })).alertMsg =
      some "Enter a refinement instruction" ∧
    (sendRefinement "" (.success { revised_text := "x", refinements := [] })).alertMsg =
      some "Enter a refinement prompt." ∧
    ("Enter a refinement instruction" : String) ≠ "Enter a refinement prompt" ∧
    ("Enter a refinement prompt." : String) ≠ "Enter a refinement prompt" := by
  refine ⟨by decide, by decide, by decide, by decide⟩

/-- C2 amended: for every empty or whitespace-only prompt the SectionCard
refine handler rejects with the alert Enter a refinement instruction, sends
no request and applies no update, leaving the section state unchanged; the
RefinementEditor handler rejects the empty prompt (its caller trims the
input first) with the alert Enter a refinement prompt followed by a
period, likewise without a request or an update. -/
theorem refine_empty_prompt_rejected (p : String)
    (o o2 : FetchOutcome RefineBody) (hp : jsTrim p = "") :
    clientRefine p o =
      { requestSent := false, update := none,
        alertMsg := some "Enter a refinement instruction",
        clearedPrompt := false } ∧
    sendRefinement "" o2 =
      { requestSent := false, update := none,
        alertMsg := some "Enter a refinement prompt.",
        clearedPrompt := false } := by
  constructor
  · unfold clientRefine
    rw [if_pos hp]
  · rfl

/-- C2 witness: the whitespace-only prompt is rejected by the SectionCard
handler with no request and no update. -/
theorem refine_empty_prompt_rejected_witness :
    clientRefine " " FetchOutcome.thrown =
      { requestSent := false, update := none,
        alertMsg := some "Enter a refinement instruction",
        clearedPrompt := false } ∧
    sendRefinement "" FetchOutcome.thrown =
      { requestSent := false, update := none,
        alertMsg := some "Enter a refinement prompt.",
        clearedPrompt := false } :=
  refine_empty_prompt_rejected " " .thrown .thrown (by decide)

/-- C6: setFeedback is idempotent on the section — two identical calls in a
row leave the section exactly as one call does, last_feedback holds the
encoded latest value, and the client patch sent by sendFeedback applied
twice equals the patch applied once (overwritten, not duplicated and not
toggled). -/
theorem set_feedback_idempotent (s : Section) (log log2 : List FeedbackRow)
    (b : Bool) (id1 id2 now1 now2 : String) (t : Section) :
    (setFeedback (setFeedback s log b id1 now1).1 log2 b id2 now2).1 =
      (setFeedback s log b id1 now1).1 ∧
    ((setFeedback s log b id1 now1).1).last_feedback =
      some (if b then 1 else 0) ∧
    (clientSendFeedback b false).update =
      some { last_feedback := some (some (if b then 1 else 0)) } ∧
    applyChanges (applyChanges t
        { last_feedback := some (some (if b then 1 else 0)) })
        { last_feedback := some (some (if b then 1 else 0)) } =
      applyChanges t { last_feedback := some (some (if b then 1 else 0)) } := by
  refine ⟨rfl, rfl, rfl, rfl⟩

/-- Helper: a refineService step with a non-blank prompt and a successful
provider outcome at the head of the script returns the updated section and
body, consuming exactly that one outcome. -/
theorem refineService_success (s : Section) (p newId now revised : String)
    (rest : ProviderScript) (hp : jsTrim p ≠ "") :
    refineService s p newId now (.ok revised :: rest) =
      (.ok ({ s with text := revised,
                     refinements := s.refinements ++
                       [rowOf s.id ⟨p, newId, now, revised⟩] },
            { revised_text := revised,
              refinements := s.refinements ++
                [rowOf s.id ⟨p, newId, now, revised⟩] }), rest) := by
  unfold refineService
  rw [if_neg hp]
  rfl

/-- C1: for every non-empty prompt and successful provider response, a
refine call succeeds with a refinements list that is the prior history with
exactly the new row appended (the full history in chronological order),
a revisedText equal to the newest entry, and the stored section text set to
that revisedText; the client then applies revised_text as the new section
text and replaces the history with the returned refinements. -/
theorem refine_success_contract (s : Section) (p newId now revised : String)
    (rest : ProviderScript) (hp : jsTrim p ≠ "") :
    ∃ s2 body,
      refineService s p newId now (.ok revised :: rest) =
        (.ok (s2, body), rest) ∧
      body.refinements =
        s.refinements ++ [rowOf s.id ⟨p, newId, now, revised⟩] ∧
      body.refinements.getLast? =
        some (rowOf s.id ⟨p, newId, now, revised⟩) ∧
      body.revised_text = (rowOf s.id ⟨p, newId, now, revised⟩).revised_text ∧
      s2.text = body.revised_text ∧
      clientRefine p (.success body) =
        { requestSent := true,
          update := some { text := some body.revised_text,
                           refinements := some body.refinements },
          alertMsg := none, clearedPrompt := true } ∧
      ∀ t : Section,
        (applyChanges t { text := some body.revised_text,
                          refinements := some body.refinements }).text =
            body.revised_text ∧
        (applyChanges t { text := some body.revised_text,
                          refinements := some body.refinements }).refinements =
            body.refinements := by
  refine ⟨_, _, refineService_success s p newId now revised rest hp,
    rfl, by simp, rfl, rfl, ?_, fun t => ⟨rfl, rfl⟩⟩
  unfold clientRefine
  rw [if_neg hp]

/-- C1 witness: one concrete successful refinement on the sample section
returns the singleton history and its revised text. -/
theorem refine_success_contract_witness :
    ∃ s2 body,
      refineService sampleSection "Make it shorter" "r1" "t1"
          [Except.ok "New text"] = (.ok (s2, body), []) ∧
      body.revised_text = "New text" ∧
      body.refinements.length = 1 := by
  obtain ⟨s2, body, heq, happ, -, hrev, -⟩ :=
    refine_success_contract sampleSection "Make it shorter" "r1" "t1"
      "New text" [] (by decide)
  refine ⟨s2, body, heq, by rw [hrev]; rfl, ?_⟩
  rw [happ]
  decide

/-- C3: when the provider call fails, the refine endpoint leaves the store
unchanged (no Refinement is persisted and the section text keeps its prior
value), reports a RefinementError carrying the human-readable cause, and
consumes exactly one provider outcome — no automatic retry; the client
error path applies no update and surfaces the carried message. -/
theorem refine_provider_failure_atomic (st : Store) (sid : Nat) (s : Section)
    (p newId now cause : String) (rest : ProviderScript)
    (hp : jsTrim p ≠ "") (hs : st.find? (fun t => t.id == sid) = some s) :
    refineEndpoint st sid p newId now (.error cause :: rest) =
      (.error (.refinement cause), st, rest) ∧
    ∀ m, m ≠ "" →
      clientRefine p (.httpError { error := some m }) =
        { requestSent := true, update := none, alertMsg := some m,
          clearedPrompt := false } := by
  constructor
  · have hserv : refineService s p newId now (.error cause :: rest) =
        (.error (.refinement cause), rest) := by
      unfold refineService
      rw [if_neg hp]
    simp only [refineEndpoint, hs]
    rw [hserv]
  · intro m hm
    unfold clientRefine
    rw [if_neg hp]
    simp [jsOrS, hm]

/-- C3 witness: a concrete provider failure on a one-section store returns
the store as it was, with the cause surfaced and no retry. -/
theorem refine_provider_failure_atomic_witness :
    refineEndpoint [sampleSection] 1 "Shorten" "r1" "t1"
        [Except.error "quota exceeded"] =
      (.error (.refinement "quota exceeded"), [sampleSection], []) ∧
    clientRefine "Shorten" (.httpError { error := some "quota exceeded" }) =
      { requestSent := true, update := none,
        alertMsg := some "quota exceeded", clearedPrompt := false } := by
  have h := refine_provider_failure_atomic [sampleSection] 1 sampleSection
    "Shorten" "r1" "t1" "quota exceeded" [] (by decide) (by decide)
  exact ⟨h.1, h.2 "quota exceeded" (by decide)⟩

/-- Helper: iterating refineService over successful calls with non-blank
prompts appends exactly the corresponding rows in call order and preserves
the section id. -/
theorem refineRuns_append (cs : List RefineCall) (s : Section)
    (hps : ∀ c ∈ cs, jsTrim c.prompt ≠ "") :
    (refineRuns s cs).refinements = s.refinements ++ cs.map (rowOf s.id) ∧
    (refineRuns s cs).id = s.id := by
  induction cs generalizing s with
  | nil => simp [refineRuns]
  | cons c cs ih =>
      have hc : jsTrim c.prompt ≠ "" := hps c (by simp)
      have hrest : ∀ x ∈ cs, jsTrim x.prompt ≠ "" :=
        fun x hx => hps x (by simp [hx])
      have hstep : refineRuns s (c :: cs) =
          refineRuns
            { s with text := c.revised,
                     refinements := s.refinements ++
                       [rowOf s.id ⟨c.prompt, c.newId, c.now, c.revised⟩] }
            cs := by
        simp only [refineRuns,
          refineService_success s c.prompt c.newId c.now c.revised [] hc]
      obtain ⟨h1, h2⟩ := ih
        { s with text := c.revised,
                 refinements := s.refinements ++
                   [rowOf s.id ⟨c.prompt, c.newId, c.now, c.revised⟩] }
        hrest
      rw [hstep]
      constructor
      · rw [h1]
        simp
      · rw [h2]

/-- C4: the refinement history of a section is an append-only,
chronologically ordered log — any sequence of N successful refine calls
yields a history that is the prior history followed by exactly the N new
rows in call order (so length N from an empty history), each row holding
the prompt, revised text, id and timestamp of its own call and never
reordered, modified or pruned; a later feedback write leaves the history
untouched. -/
theorem refinement_history_append_only (s : Section) (cs : List RefineCall)
    (hps : ∀ c ∈ cs, jsTrim c.prompt ≠ "") :
    (refineRuns s cs).refinements = s.refinements ++ cs.map (rowOf s.id) ∧
    (s.refinements = [] →
      (refineRuns s cs).refinements.length = cs.length) ∧
    ∀ log liked newId now,
      ((setFeedback (refineRuns s cs) log liked newId now).1).refinements =
        (refineRuns s cs).refinements := by
  obtain ⟨h1, -⟩ := refineRuns_append cs s hps
  refine ⟨h1, ?_, fun log liked newId now => rfl⟩
  intro hempty
  rw [h1, hempty]
  simp

/-- C4 witness: two concrete successful refinements on the sample section
give a history of length two in call order, and a feedback write keeps
it. -/
theorem refinement_history_append_only_witness :
    (refineRuns sampleSection
        [⟨"Shorten", "r1", "t1", "Shorter text"⟩,
         ⟨"Formalize", "r2", "t2", "Formal text"⟩]).refinements =
      [rowOf 1 ⟨"Shorten", "r1", "t1", "Shorter text"⟩,
       rowOf 1 ⟨"Formalize", "r2", "t2", "Formal text"⟩] ∧
    (refineRuns sampleSection
        [⟨"Shorten", "r1", "t1", "Shorter text"⟩,
         ⟨"Formalize", "r2", "t2", "Formal text"⟩]).refinements.length = 2 := by
  have h := refinement_history_append_only sampleSection
    [⟨"Shorten", "r1", "t1", "Shorter text"⟩,
     ⟨"Formalize", "r2", "t2", "Formal text"⟩]
    (by intro c hc; fin_cases hc <;> decide)
  exact ⟨h.1, h.2.1 rfl⟩

/-- Helper: a generation loop fed one successful provider outcome per page
creates exactly the expected pages and consumes exactly those outcomes. -/
theorem generatePages_all_ok (docId : Nat) (p theme : String)
    (ts : List String) (i : Nat) (rest : ProviderScript) :
    generatePages docId p theme i ts.length (ts.map Except.ok ++ rest) =
      (expectedPages docId p theme i ts, none, rest) := by
  induction ts generalizing i with
  | nil => rfl
  | cons t ts ih =>
      show generatePages docId p theme i (ts.length + 1)
          (Except.ok t :: (ts.map Except.ok ++ rest)) = _
      simp only [generatePages]
      rw [ih (i + 1)]
      rfl

/-- Helper: the positions of the expected pages starting at index i are the
range from i of the page count. -/
theorem expectedPages_map_position (docId : Nat) (p theme : String)
    (ts : List String) (i : Nat) :
    (expectedPages docId p theme i ts).map Section.position =
      List.range' i ts.length := by
  induction ts generalizing i with
  | nil => rfl
  | cons t ts ih =>
      show (mkPage docId p theme i t).position ::
          (expectedPages docId p theme (i + 1) ts).map Section.position =
        List.range' i (ts.length + 1)
      rw [ih (i + 1), List.range'_succ]
      rfl

/-- Helper: the headings of the expected pages starting at index i are
derived from the page topic at the indices from i. -/
theorem expectedPages_map_heading (docId : Nat) (p theme : String)
    (ts : List String) (i : Nat) :
    (expectedPages docId p theme i ts).map Section.heading =
      (List.range' i ts.length).map (pageHeading p) := by
  induction ts generalizing i with
  | nil => rfl
  | cons t ts ih =>
      show (mkPage docId p theme i t).heading ::
          (expectedPages docId p theme (i + 1) ts).map Section.heading =
        (List.range' i (ts.length + 1)).map (pageHeading p)
      rw [ih (i + 1), List.range'_succ]
      rfl

/-- C5: for a page count k between 1 and 50 and a non-blank prompt, when
every provider call succeeds generateDocument consumes exactly one provider
outcome per page (k in all, the unconsumed script is returned untouched)
and creates exactly k sections whose positions are 0..k-1 (position equals
the page index) and whose headings are derived from the page topic. -/
theorem generate_document_success (doc : Document) (p theme : String)
    (ts : List String) (rest : ProviderScript) (k : Nat)
    (hk : ts.length = k) (h1 : 1 ≤ k) (h50 : k ≤ 50)
    (hp : jsTrim p ≠ "") :
    generateDocument doc p theme k (ts.map Except.ok ++ rest) =
      (.ok { doc with sections := some (expectedPages doc.id p theme 0 ts) },
       expectedPages doc.id p theme 0 ts, rest) ∧
    (expectedPages doc.id p theme 0 ts).length = k ∧
    (expectedPages doc.id p theme 0 ts).map Section.position =
      List.range k ∧
    (expectedPages doc.id p theme 0 ts).map Section.heading =
      (List.range k).map (pageHeading p) := by
  subst hk
  have hk0 : ts.length ≠ 0 := by omega
  have hlen : (expectedPages doc.id p theme 0 ts).length = ts.length := by
    have := congrArg List.length (expectedPages_map_position doc.id p theme ts 0)
    simpa using this
  refine ⟨?_, hlen, ?_, ?_⟩
  · unfold generateDocument
    rw [if_neg hk0, if_neg hp, generatePages_all_ok]
  · rw [expectedPages_map_position, List.range_eq_range']
  · rw [expectedPages_map_heading, List.range_eq_range']

/-- The sections a concrete three-page generation run creates. -/
def demoPages : List Section :=
  expectedPages sampleDoc.id "AI in education" "formal" 0 ["A", "B", "C"]

/-- C5 witness: three successful provider calls create three sections with
positions 0, 1, 2 and consume exactly the three outcomes. -/
theorem generate_document_success_witness :
    generateDocument sampleDoc "AI in education" "formal" 3
        [Except.ok "A", Except.ok "B", Except.ok "C"] =
      (Except.ok { sampleDoc with sections := some demoPages },
       demoPages, []) ∧
    demoPages.map Section.position = List.range 3 := by
  have h := generate_document_success sampleDoc "AI in education" "formal"
    ["A", "B", "C"] [] 3 rfl (by decide) (by decide) (by decide)
  exact ⟨h.1, h.2.2.1⟩

/-- C7: export rejects every format outside the fixed set docx, pptx, pdf
with a ValidationError and produces no bytes; a format in the set with an
unknown document id fails with a NotFoundError; on success it hands the
renderer the document title and the ordered heading and text pairs of its
sections and pairs the bytes with the format-appropriate extension. -/
theorem export_contract
    (render : String → List (String × String) → String → List Nat)
    (docs : List Document) (docId : Nat) (format : String) :
    (format ∉ exportFormats →
      exportDocument render docs docId format =
        .error (.validation ("Unsupported format: " ++ format))) ∧
    (format ∈ exportFormats →
      docs.find? (fun d => d.id == docId) = none →
      exportDocument render docs docId format =
        .error (.notFound "Document not found")) ∧
    (∀ d0, format ∈ exportFormats →
      docs.find? (fun d => d.id == docId) = some d0 →
      exportDocument render docs docId format =
        .ok (render d0.title
               ((d0.sections.getD []).map (fun s => (s.heading, s.text)))
               format,
             extFor format)) ∧
    extFor "docx" = "docx" ∧ extFor "pptx" = "pptx" ∧ extFor "pdf" = "pdf" := by
  refine ⟨?_, ?_, ?_, rfl, rfl, rfl⟩
  · intro h
    simp [exportDocument, h]
  · intro h hf
    simp [exportDocument, h, hf]
  · intro d0 h hf
    simp [exportDocument, h, hf]

/-- C7 witness: a concrete unsupported format is rejected, a missing
document id is not found, and a concrete valid export succeeds with the
matching extension. -/
theorem export_contract_witness :
    exportDocument demoRender [sampleDoc] 7 "xlsx" =
      .error (.validation ("Unsupported format: " ++ "xlsx")) ∧
    exportDocument demoRender [sampleDoc] 9 "pdf" =
      .error (.notFound "Document not found") ∧
    exportDocument demoRender [sampleDoc] 7 "pdf" =
      .ok (demoRender sampleDoc.title
             ((sampleDoc.sections.getD []).map (fun s => (s.heading, s.text)))
             "pdf",
           extFor "pdf") := by
  refine ⟨(export_contract demoRender [sampleDoc] 7 "xlsx").1 (by decide),
    (export_contract demoRender [sampleDoc] 9 "pdf").2.1 (by decide)
      (by decide),
    (export_contract demoRender [sampleDoc] 7 "pdf").2.2.1 sampleDoc
      (by decide) (by decide)⟩

/-- C8 counterexample: a 400 response whose JSON body carries the error key
is mis-handled by handleResponse, which surfaces HTTP 400 instead of the
carried message; and a body carrying the detail key is mis-handled by the
refine handler of app.js, which alerts the generic Refine failed. -/
theorem error_shape_counterexample :
    handleResponse 400 (some { error := some "boom" }) =
      .error { message := "HTTP 400", status := 400,
               body := some { error := some "boom" } } ∧
    ("HTTP 400" : String) ≠ "boom" ∧
    (clientRefine "Shorten" (.httpError { detail := some "boom" })).alertMsg =
      some "Refine failed" ∧
    some "Refine failed" ≠ some ("boom" : String) := by
  refine ⟨rfl, by decide, by decide, by decide⟩

/-- C8 amended: every non-2xx response is surfaced, but each handler reads
only its own key — handleResponse surfaces the detail key (then message,
then HTTP with the status) and ignores the error key, while the app.js
refine handler surfaces the error key and falls back to the generic Refine
failed, ignoring the detail key. -/
theorem error_shape_amended (status : Nat) (b : ErrBody) (p : String)
    (hs : ¬(200 ≤ status ∧ status < 300)) (hp : jsTrim p ≠ "") :
    (∀ m, b.detail = some m → m ≠ "" →
      handleResponse status (some b) =
        .error { message := m, status := status, body := some b }) ∧
    (b.detail = none → b.message = none →
      handleResponse status (some b) =
        .error { message := "HTTP " ++ toString status, status := status,
                 body := some b }) ∧
    (∀ m, m ≠ "" →
      (clientRefine p (.httpError { b with error := some m })).alertMsg =
        some m) ∧
    (b.error = none →
      (clientRefine p (.httpError b)).alertMsg = some "Refine failed") := by
  refine ⟨?_, ?_, ?_, ?_⟩
  · intro m hd hm
    simp [handleResponse, hs, hd, jsOrS, hm]
  · intro hd hmsg
    simp [handleResponse, hs, hd, hmsg, jsOrS]
  · intro m hm
    unfold clientRefine
    rw [if_neg hp]
    simp [jsOrS, hm]
  · intro he
    unfold clientRefine
    rw [if_neg hp]
    simp [jsOrS, he]

/-- C8 amended witness: a concrete 500 response with a detail key is
surfaced by handleResponse, and a concrete error key is surfaced by the
refine handler. -/
theorem error_shape_amended_witness :
    handleResponse 500 (some { detail := some "quota exhausted" }) =
      .error { message := "quota exhausted", status := 500,
               body := some { detail := some "quota exhausted" } } ∧
    (clientRefine "Shorten this"
        (.httpError { error := some "Refine failed: quota" })).alertMsg =
      some "Refine failed: quota" := by
  refine ⟨(error_shape_amended 500 { detail := some "quota exhausted" } "x"
      (by decide) (by decide)).1 "quota exhausted" rfl (by decide), ?_⟩
  exact (error_shape_amended 400 {} "Shorten this" (by decide)
    (by decide)).2.2.1 "Refine failed: quota" (by decide)

end AIDoc
